import Mathlib

/-!
Shallow embedding of the Brave ad-block arbiter
(`AdBlockBaseService::ShouldStartRequest` and its helpers, from
`components/brave_shields/browser/ad_block_base_service.cc`) and of the
bookmark order comparison (`components/brave_sync/bookmark_order_util.cc`),
with theorems settling the specification claims about them.

The two rule-matching engines (`adblock::Blocker`, `AdBlockClient`), the
`SameDomainOrHost` registrable-domain test and URL/origin serialization are
external collaborators of this repository; they are modelled abstractly
(as function parameters) or, where a concrete shape is needed, from the
specification's description of their interfaces.
-/

/-- Resource type enumeration (`content::ResourceType`, external to this
repository).  The constructors are exactly the enumerators named by the two
switch statements in `ad_block_base_service.cc`, including the
`kInvalidResourceType` sentinel from `brave/browser/net/url_context.h` and the
`RESOURCE_TYPE_LAST_TYPE` bound; a closed inductive models the enumeration. -/
inductive ResourceType where
  | kMainFrame
  | kSubFrame
  | kStylesheet
  | kScript
  | kImage
  | kFontResource
  | kSubResource
  | kObject
  | kMedia
  | kWorker
  | kSharedWorker
  | kPrefetch
  | kFavicon
  | kXhr
  | kPing
  | kServiceWorker
  | kCspReport
  | kPluginResource
  | kNavigationPreload
  | kLastType
  | kInvalidResourceType
  deriving DecidableEq, Repr

/-! Filter option bit flags.  Modelled from the spec: the filter-option
bitset of the legacy rule engine (the vendored ad-block library, not under
`src/`) has one distinct bit flag per resource-type category plus the
`third-party` / `not-third-party` pair and an `explicit-cancel` flag.  The
numeric values are the library's: distinct powers of two. -/

def FONoFilterOption : Nat := 0

def FOScript : Nat := 1

def FOImage : Nat := 2

def FOStylesheet : Nat := 4

def FOObject : Nat := 8

def FOXmlHttpRequest : Nat := 16

def FOSubdocument : Nat := 64

def FODocument : Nat := 128

def FOOther : Nat := 256

def FOThirdParty : Nat := 8192

def FONotThirdParty : Nat := 16384

def FOPing : Nat := 32768

def FOFont : Nat := 262144

def FOMedia : Nat := 524288

def FOExplicitCancel : Nat := 67108864

/-- `ResourceTypeToString` from `ad_block_base_service.cc`: the resource-type
string handed to the current engine's `Matches`.  The residual bucket
(worker, shared worker, prefetch, service worker, CSP report, plugin
resource, last-type and the `default:` label) leaves the initial empty
string in place. -/
def ResourceTypeToString (resource_type : ResourceType) : String :=
  match resource_type with
  | .kMainFrame => "main_frame"
  | .kSubFrame => "sub_frame"
  | .kStylesheet => "stylesheet"
  | .kScript => "script"
  | .kFavicon => "image"
  | .kImage => "image"
  | .kFontResource => "font"
  | .kSubResource => "other"
  | .kObject => "object"
  | .kMedia => "media"
  | .kXhr => "xhr"
  | .kPing => "ping"
  | _ => ""

/-- `ResourceTypeToFilterOption` from `ad_block_base_service.cc`: maps a
resource type to the legacy engine's filter-option flag.  The residual
bucket (worker, shared worker, prefetch, service worker, CSP report, plugin
resource, navigation preload, the invalid sentinel and the `default:` label)
leaves the initial `FONoFilterOption` in place. -/
def ResourceTypeToFilterOption (resource_type : ResourceType) : Nat :=
  match resource_type with
  | .kMainFrame => FODocument
  | .kSubFrame => FOSubdocument
  | .kStylesheet => FOStylesheet
  | .kScript => FOScript
  | .kFavicon => FOImage
  | .kImage => FOImage
  | .kFontResource => FOFont
  | .kSubResource => FOOther
  | .kObject => FOObject
  | .kMedia => FOMedia
  | .kXhr => FOXmlHttpRequest
  | .kPing => FOPing
  | _ => FONoFilterOption

/-- Synthetic origin built by `url::Origin::CreateFromNormalizedTuple`
(external URL library): a (scheme, host, port) tuple. -/
structure Origin where
  scheme : String
  host : String
  port : Nat
  deriving DecidableEq, Repr

/-- `url::Origin::CreateFromNormalizedTuple(scheme, host, port)`. -/
def Origin.createFromNormalizedTuple (scheme host : String) (port : Nat) : Origin :=
  { scheme := scheme, host := host, port := port }

/-- Modelled from the spec: `tab_origin.GetURL().spec()`, the serialized URL
string of the synthetic origin handed to the current engine; the URL library
itself is external to this repository.  The claims never depend on the exact
serialization because the engine is abstract. -/
def Origin.urlSpec (o : Origin) : String :=
  o.scheme ++ "://" ++ o.host ++ ":" ++ toString o.port ++ "/"

/-- The private-registry mode passed to `SameDomainOrHost`
(`net::registry_controlled_domains`, external). -/
inductive PrivateRegistryFilter where
  | excludePrivateRegistries
  | includePrivateRegistries
  deriving DecidableEq, Repr

/-- Abstract `SameDomainOrHost(url, origin, filter)` of the external
registrable-domain library: true when the URL's effective registrable domain
or exact host matches the origin's, private registries treated per the
filter argument. -/
abbrev SameDomainOrHostFn := String → Origin → PrivateRegistryFilter → Bool

/-- Abstract Engine A (`adblock::Blocker::Matches`, the current matcher,
external): takes the request URL spec, the tab-origin URL spec and the
resource-type string, and reports whether a rule matches. -/
abbrev EngineA := String → String → String → Bool

/-- A filter rule (the ad-block library's `Filter`; renamed here because
Mathlib already declares `Filter`) as seen by the arbiter: only its
filter-option bitset is consulted (`matching_filter->filterOption`). -/
structure ABFilter where
  filterOption : Nat
  deriving DecidableEq, Repr

/-- Result of one call to the legacy engine's `matches`: the returned bool
and the two out-parameters `matching_filter` / `matching_exception_filter`
(null pointers modelled as `none`). -/
structure EngineBResult where
  matched : Bool
  matchingFilter : Option ABFilter
  matchingExceptionFilter : Option ABFilter
  deriving DecidableEq, Repr

/-- Abstract Engine B (`AdBlockClient::matches`, the legacy matcher,
external): takes the request URL spec, the filter-option bitset and the tab
host, and produces a match verdict with the two rule out-parameters. -/
abbrev EngineB := String → Nat → String → EngineBResult

/-- The filter-option bitset built by `ShouldStartRequest` before querying
the legacy engine: the resource-type flag, with `FONotThirdParty` or-ed in
when `SameDomainOrHost(url, tab_origin, INCLUDE_PRIVATE_REGISTRIES)` holds
for the synthetic tab origin (scheme "https", port 80), and `FOThirdParty`
or-ed in otherwise. -/
def requestFilterOption (sameDomainOrHost : SameDomainOrHostFn) (url : String)
    (resource_type : ResourceType) (tab_host : String) : Nat :=
  let current_option := ResourceTypeToFilterOption resource_type
  let tab_origin := Origin.createFromNormalizedTuple "https" tab_host 80
  if sameDomainOrHost url tab_origin .includePrivateRegistries then
    current_option ||| FONotThirdParty
  else
    current_option ||| FOThirdParty

/-- Observable outcome of one `ShouldStartRequest` call: the returned bool
(`allow`: true means the request may start) and the final pointee values of
the two out-parameters (`none` models a null pointer, which has no pointee). -/
structure SSRResult where
  allow : Bool
  didMatchException : Option Bool
  cancelRequestExplicitly : Option Bool
  deriving DecidableEq, Repr

/-- `AdBlockBaseService::ShouldStartRequest`, embedded as a pure function.
The two engines and `SameDomainOrHost` are abstract parameters; `url` is the
request URL's spec string; `didMatchException` / `cancelRequestExplicitly`
carry the initial pointee values of the caller's out-parameters (`none` for
a null pointer).  The result is `none` exactly when the C++ would
dereference a null pointer (the unguarded `*did_match_exception = false` on
the Engine-B block path); otherwise it is `some` of the returned bool and
the final pointee values. -/
def ShouldStartRequest (engineA : EngineA) (engineB : EngineB)
    (sameDomainOrHost : SameDomainOrHostFn) (url : String)
    (resource_type : ResourceType) (tab_host : String)
    (didMatchException cancelRequestExplicitly : Option Bool) :
    Option SSRResult :=
  let current_option := requestFilterOption sameDomainOrHost url resource_type tab_host
  let tab_origin := Origin.createFromNormalizedTuple "https" tab_host 80
  if engineA url tab_origin.urlSpec (ResourceTypeToString resource_type) then
    some { allow := false, didMatchException := didMatchException,
           cancelRequestExplicitly := cancelRequestExplicitly }
  else
    let r := engineB url current_option tab_host
    if r.matched then
      let cre :=
        match r.matchingFilter, cancelRequestExplicitly with
        | some f, some c =>
            if f.filterOption &&& FOExplicitCancel ≠ 0 then some true else some c
        | _, _ => cancelRequestExplicitly
      match didMatchException with
      | none => none
      | some _ =>
          some { allow := false, didMatchException := some false,
                 cancelRequestExplicitly := cre }
    else
      let dme :=
        match didMatchException with
        | none => none
        | some _ => some r.matchingExceptionFilter.isSome
      some { allow := true, didMatchException := dme,
             cancelRequestExplicitly := cancelRequestExplicitly }

/-- The service state touched by the claims: the legacy engine instance
`ad_block_client_`, the current engine instance `ad_block_client2_`, and the
rule-data buffer `buffer_`.  Engine instances are modelled by their matching
functions; the buffer is a byte list. -/
structure AdBlockServiceState where
  ad_block_client : EngineB
  ad_block_client2 : EngineA
  buffer : List Nat

/-- `AdBlockBaseService::ShouldStartRequest` with the service state threaded
explicitly: the engines are read from the state, and the method body
contains no assignment to any member, so the state comes back unchanged. -/
def AdBlockServiceState.shouldStartRequest (st : AdBlockServiceState)
    (sameDomainOrHost : SameDomainOrHostFn) (url : String)
    (resource_type : ResourceType) (tab_host : String)
    (didMatchException cancelRequestExplicitly : Option Bool) :
    Option SSRResult × AdBlockServiceState :=
  (ShouldStartRequest st.ad_block_client2 st.ad_block_client sameDomainOrHost
    url resource_type tab_host didMatchException cancelRequestExplicitly, st)

/-- `AdBlockBaseService::UpdateAdBlockClient`: installs a freshly
deserialized legacy engine instance and its backing buffer. -/
def UpdateAdBlockClient (st : AdBlockServiceState) (ad_block_client : EngineB)
    (buffer : List Nat) : AdBlockServiceState :=
  { st with ad_block_client := ad_block_client, buffer := buffer }

/-- `AdBlockBaseService::OnGetDATFileData`: result of the rule-data loader is
a pair of the deserialized engine (`none` when deserialization failed) and
the raw buffer.  An empty buffer or a failed deserialization is logged and
skips the swap; otherwise `UpdateAdBlockClient` is posted with the new
engine and buffer (the post to the IO thread is modelled as the immediate
state update it performs). -/
def OnGetDATFileData (st : AdBlockServiceState)
    (result : Option EngineB × List Nat) : AdBlockServiceState :=
  if result.2.isEmpty then
    st
  else
    match result.1 with
    | none => st
    | some client => UpdateAdBlockClient st client result.2

/-! Bookmark order comparison, `components/brave_sync/bookmark_order_util.cc`.
`base::SplitString` / `base::StringToInt` are external Chromium base
utilities; they are embedded with their standard behavior: split on the
single-character separator, trim ASCII whitespace from each piece, drop
pieces that are empty after trimming; parse an optional leading minus sign
followed by decimal digits of the whole remaining string, failing on an
empty string, a stray character, or a value outside the 32-bit `int`
range. -/

/-- The ASCII whitespace characters trimmed by `base::TRIM_WHITESPACE`. -/
def isBaseWhitespace (c : Char) : Bool :=
  c = ' ' || c = '\t' || c = '\n' || c = '\x0b' || c = '\x0c' || c = '\r'

/-- Trim leading and trailing ASCII whitespace from a character list. -/
def trimWhitespace (cs : List Char) : List Char :=
  ((cs.dropWhile isBaseWhitespace).reverse.dropWhile isBaseWhitespace).reverse

/-- Split a character list at every occurrence of the separator, keeping
empty pieces (they are filtered afterwards, per `SPLIT_WANT_NONEMPTY`). -/
def splitAtSep (sep : Char) : List Char → List Char → List (List Char)
  | [], acc => [acc.reverse]
  | c :: rest, acc =>
    if c = sep then acc.reverse :: splitAtSep sep rest []
    else splitAtSep sep rest (c :: acc)

/-- `base::SplitString(s, ".", TRIM_WHITESPACE, SPLIT_WANT_NONEMPTY)`:
dot-separated pieces, each trimmed, empty pieces dropped. -/
def splitOrderString (s : String) : List (List Char) :=
  ((splitAtSep '.' s.data []).map trimWhitespace).filter (fun p => p ≠ [])

/-- Decimal value of a digit list, or `none` if empty or not all digits. -/
def parseDigits (cs : List Char) : Option Nat :=
  if cs = [] then none
  else if cs.all Char.isDigit then
    some (cs.foldl (fun a c => a * 10 + (c.toNat - 48)) 0)
  else none

/-- Largest value of the C++ `int` output of `base::StringToInt`. -/
def intMax : Int := 2147483647

/-- Smallest value of the C++ `int` output of `base::StringToInt`. -/
def intMin : Int := -2147483648

/-- `base::StringToInt`: optional leading minus sign, then decimal digits
spanning the rest of the string; fails (returns false in C++, `none` here)
on an empty string, a non-digit character, or 32-bit `int` overflow. -/
def stringToInt (s : List Char) : Option Int :=
  match s with
  | '-' :: rest =>
    (parseDigits rest).bind fun n =>
      if (-(n : Int)) < intMin then none else some (-(n : Int))
  | cs =>
    (parseDigits cs).bind fun n =>
      if (n : Int) > intMax then none else some (n : Int)

/-- The per-component loop of `OrderToIntVect`: parse each piece with
`StringToInt`; `CHECK(b)` and `CHECK(output >= 0)` abort the process on a
parse failure or a negative value, modelled as `none`. -/
def parseOrderComponents : List (List Char) → Option (List Int)
  | [] => some []
  | c :: rest =>
    match stringToInt c with
    | none => none
    | some v =>
      if v < 0 then none
      else (parseOrderComponents rest).map (fun tl => v :: tl)

/-- `brave_sync::OrderToIntVect`: split the order string on dots and parse
every component to a non-negative `int`; `none` models the `CHECK` aborts. -/
def OrderToIntVect (s : String) : Option (List Int) :=
  parseOrderComponents (splitOrderString s)

/-- `std::lexicographical_compare` with the default `operator<`: strict
lexicographic less-than on integer lists, a proper prefix being smaller. -/
def lexCompare : List Int → List Int → Bool
  | _, [] => false
  | [], _ :: _ => true
  | a :: as, b :: bs =>
    if a < b then true
    else if b < a then false
    else lexCompare as bs

/-- `brave_sync::CompareOrder`: parse both order strings and compare the
integer vectors lexicographically; `none` models the `CHECK` aborts inside
`OrderToIntVect`. -/
def CompareOrder (left right : String) : Option Bool :=
  match OrderToIntVect left, OrderToIntVect right with
  | some vec_left, some vec_right => some (lexCompare vec_left vec_right)
  | _, _ => none

/-! Sample engine instances and registrable-domain oracles, used to
instantiate the abstract collaborators in concrete witnesses and
counterexamples. -/

/-- Sample Engine A that matches every request. -/
def engineAMatch : EngineA := fun _ _ _ => true

/-- Sample Engine A that matches no request. -/
def engineANoMatch : EngineA := fun _ _ _ => false

/-- Sample Engine B reporting a block whose rule carries `FOExplicitCancel`,
together with a recorded exception rule. -/
def engineBBlockExplicit : EngineB := fun _ _ _ =>
  { matched := true, matchingFilter := some { filterOption := FOExplicitCancel },
    matchingExceptionFilter := some { filterOption := 0 } }

/-- Sample Engine B reporting a block whose rule does not carry
`FOExplicitCancel`. -/
def engineBBlockPlain : EngineB := fun _ _ _ =>
  { matched := true, matchingFilter := some { filterOption := FOScript },
    matchingExceptionFilter := none }

/-- Sample Engine B reporting no block and no exception rule. -/
def engineBNoMatch : EngineB := fun _ _ _ =>
  { matched := false, matchingFilter := none, matchingExceptionFilter := none }

/-- Sample Engine B reporting no block but recording a matching exception
rule. -/
def engineBExceptionOnly : EngineB := fun _ _ _ =>
  { matched := false, matchingFilter := none,
    matchingExceptionFilter := some { filterOption := 0 } }

/-- Sample `SameDomainOrHost` oracle that always reports cross-origin. -/
def sdhNever : SameDomainOrHostFn := fun _ _ _ => false

/-- Sample service state for the load-path witnesses. -/
def sampleServiceState : AdBlockServiceState :=
  { ad_block_client := engineBNoMatch, ad_block_client2 := engineANoMatch,
    buffer := [] }

/-- Claim C6: the resource-type-to-filter-option mapping is a total,
deterministic function.  The first conjunct records totality (every value of
the closed enumeration yields a flag); the remaining conjuncts are the
complete value table, in which each constructor maps to exactly one flag and
the whole residual bucket (worker, shared worker, prefetch, service worker,
CSP report, plugin resource, navigation preload, last-type, the invalid
sentinel) maps to `FONoFilterOption` rather than to an error. -/
theorem resourceTypeToFilterOption_total_table :
    (∀ rt : ResourceType, ∃ fo : Nat, ResourceTypeToFilterOption rt = fo) ∧
    ResourceTypeToFilterOption .kMainFrame = FODocument ∧
    ResourceTypeToFilterOption .kSubFrame = FOSubdocument ∧
    ResourceTypeToFilterOption .kStylesheet = FOStylesheet ∧
    ResourceTypeToFilterOption .kScript = FOScript ∧
    ResourceTypeToFilterOption .kFavicon = FOImage ∧
    ResourceTypeToFilterOption .kImage = FOImage ∧
    ResourceTypeToFilterOption .kFontResource = FOFont ∧
    ResourceTypeToFilterOption .kSubResource = FOOther ∧
    ResourceTypeToFilterOption .kObject = FOObject ∧
    ResourceTypeToFilterOption .kMedia = FOMedia ∧
    ResourceTypeToFilterOption .kXhr = FOXmlHttpRequest ∧
    ResourceTypeToFilterOption .kPing = FOPing ∧
    ResourceTypeToFilterOption .kWorker = FONoFilterOption ∧
    ResourceTypeToFilterOption .kSharedWorker = FONoFilterOption ∧
    ResourceTypeToFilterOption .kPrefetch = FONoFilterOption ∧
    ResourceTypeToFilterOption .kServiceWorker = FONoFilterOption ∧
    ResourceTypeToFilterOption .kCspReport = FONoFilterOption ∧
    ResourceTypeToFilterOption .kPluginResource = FONoFilterOption ∧
    ResourceTypeToFilterOption .kNavigationPreload = FONoFilterOption ∧
    ResourceTypeToFilterOption .kLastType = FONoFilterOption ∧
    ResourceTypeToFilterOption .kInvalidResourceType = FONoFilterOption :=
  ⟨fun rt => ⟨ResourceTypeToFilterOption rt, rfl⟩, rfl, rfl, rfl, rfl, rfl,
    rfl, rfl, rfl, rfl, rfl, rfl, rfl, rfl, rfl, rfl, rfl, rfl, rfl, rfl,
    rfl, rfl⟩

/-- Claim C5: the party classification sets exactly one of `FONotThirdParty`
/ `FOThirdParty` into the filter-option bitset: `FONotThirdParty` exactly
when `SameDomainOrHost` holds for the request URL against the synthetic tab
origin (scheme "https", port 80) with private registries included, and
`FOThirdParty` exactly otherwise; the two flags are never both set. -/
theorem requestFilterOption_party (sameDomainOrHost : SameDomainOrHostFn)
    (url : String) (rt : ResourceType) (tab_host : String) :
    (requestFilterOption sameDomainOrHost url rt tab_host &&&
        FONotThirdParty = FONotThirdParty ↔
      sameDomainOrHost url (Origin.createFromNormalizedTuple "https" tab_host 80)
        .includePrivateRegistries = true) ∧
    (requestFilterOption sameDomainOrHost url rt tab_host &&&
        FOThirdParty = FOThirdParty ↔
      sameDomainOrHost url (Origin.createFromNormalizedTuple "https" tab_host 80)
        .includePrivateRegistries = false) ∧
    ¬(requestFilterOption sameDomainOrHost url rt tab_host &&&
        FONotThirdParty = FONotThirdParty ∧
      requestFilterOption sameDomainOrHost url rt tab_host &&&
        FOThirdParty = FOThirdParty) := by
  cases h : sameDomainOrHost url
      (Origin.createFromNormalizedTuple "https" tab_host 80)
      .includePrivateRegistries <;>
    simp only [requestFilterOption, h, if_true, if_false, Bool.false_eq_true,
      Bool.true_eq_false, ite_true, ite_false] <;>
    cases rt <;> simp <;> decide

/-- Claim C1, counterexample: Engine A reports a match, the caller's
`did_match_exception` initially points at `true`, and the call returns
`allow = false` with the pointee still `true` — the function returned
without writing the out-parameter, so it was not "set to false" as the
claim states. -/
theorem shouldStartRequest_engineA_counterexample :
    engineAMatch "https://ads.example.com/track.js"
      (Origin.createFromNormalizedTuple "https" "example.com" 80).urlSpec
      (ResourceTypeToString .kScript) = true ∧
    ShouldStartRequest engineAMatch engineBBlockExplicit sdhNever
      "https://ads.example.com/track.js" .kScript "example.com"
      (some true) (some false)
      = some { allow := false, didMatchException := some true,
               cancelRequestExplicitly := some false } ∧
    (some true : Option Bool) ≠ some false := by
  exact ⟨rfl, by decide, by decide⟩

/-- Claim C1 (amended): if Engine A reports a match for (url string,
tab-origin URL string, resource-type string), `ShouldStartRequest` returns
`allow = false` immediately, leaving both out-parameters unchanged (in
particular `did_match_exception` keeps its prior value rather than being set
to false), regardless of Engine B's state and without consulting Engine B —
the conclusion holds for every `engineB` and does not mention it. -/
theorem shouldStartRequest_engineA_blocks (engineA : EngineA) (engineB : EngineB)
    (sameDomainOrHost : SameDomainOrHostFn) (url : String)
    (rt : ResourceType) (tab_host : String)
    (didMatchException cancelRequestExplicitly : Option Bool)
    (hA : engineA url (Origin.createFromNormalizedTuple "https" tab_host 80).urlSpec
        (ResourceTypeToString rt) = true) :
    ShouldStartRequest engineA engineB sameDomainOrHost url rt tab_host
      didMatchException cancelRequestExplicitly
      = some { allow := false, didMatchException := didMatchException,
               cancelRequestExplicitly := cancelRequestExplicitly } := by
  simp [ShouldStartRequest, hA]

/-- Claim C1 (amended), witness at a concrete input. -/
theorem shouldStartRequest_engineA_blocks_witness :
    ShouldStartRequest engineAMatch engineBNoMatch sdhNever
      "https://a.com/" .kImage "b.com" (some false) none
      = some { allow := false, didMatchException := some false,
               cancelRequestExplicitly := none } :=
  shouldStartRequest_engineA_blocks engineAMatch engineBNoMatch sdhNever
    "https://a.com/" .kImage "b.com" (some false) none rfl

/-- Claim C2: when Engine A reports no match and Engine B reports a blocking
match whose matched rule carries `FOExplicitCancel`, the call returns
`allow = false`, writes `cancel_request_explicitly := true` exactly when the
caller passed a non-null pointer (`Option.map` sets the pointee to `true`
when present and leaves a null pointer alone), and writes
`did_match_exception := false` (the caller's pointer being non-null, carrying
some prior value `b`). -/
theorem shouldStartRequest_engineB_explicit_cancel (engineA : EngineA)
    (engineB : EngineB) (sameDomainOrHost : SameDomainOrHostFn) (url : String)
    (rt : ResourceType) (tab_host : String) (b : Bool)
    (cancelRequestExplicitly : Option Bool) (f : ABFilter)
    (mef : Option ABFilter)
    (hA : engineA url (Origin.createFromNormalizedTuple "https" tab_host 80).urlSpec
        (ResourceTypeToString rt) = false)
    (hB : engineB url (requestFilterOption sameDomainOrHost url rt tab_host) tab_host
      = { matched := true, matchingFilter := some f,
          matchingExceptionFilter := mef })
    (hf : f.filterOption &&& FOExplicitCancel ≠ 0) :
    ShouldStartRequest engineA engineB sameDomainOrHost url rt tab_host
      (some b) cancelRequestExplicitly
      = some { allow := false, didMatchException := some false,
               cancelRequestExplicitly :=
                 cancelRequestExplicitly.map (fun _ => true) } := by
  cases cancelRequestExplicitly <;> simp [ShouldStartRequest, hA, hB, hf]

/-- Claim C2, witness at a concrete input. -/
theorem shouldStartRequest_engineB_explicit_cancel_witness :
    ShouldStartRequest engineANoMatch engineBBlockExplicit sdhNever
      "https://a.com/" .kScript "b.com" (some true) (some false)
      = some { allow := false, didMatchException := some false,
               cancelRequestExplicitly := (some false : Option Bool).map (fun _ => true) } :=
  shouldStartRequest_engineB_explicit_cancel engineANoMatch engineBBlockExplicit
    sdhNever "https://a.com/" .kScript "b.com" true (some false)
    { filterOption := FOExplicitCancel } (some { filterOption := 0 })
    rfl rfl (by decide)

/-- Claim C3: when neither engine reports a blocking match, the call returns
`allow = true` and writes `did_match_exception` (the caller's pointer being
non-null) to `true` exactly when Engine B recorded a matching exception rule
(`matching_exception_filter` non-null) and to `false` otherwise;
`cancel_request_explicitly` is left unchanged. -/
theorem shouldStartRequest_no_block (engineA : EngineA) (engineB : EngineB)
    (sameDomainOrHost : SameDomainOrHostFn) (url : String)
    (rt : ResourceType) (tab_host : String) (b : Bool)
    (cancelRequestExplicitly : Option Bool) (mf mef : Option ABFilter)
    (hA : engineA url (Origin.createFromNormalizedTuple "https" tab_host 80).urlSpec
        (ResourceTypeToString rt) = false)
    (hB : engineB url (requestFilterOption sameDomainOrHost url rt tab_host) tab_host
      = { matched := false, matchingFilter := mf,
          matchingExceptionFilter := mef }) :
    ShouldStartRequest engineA engineB sameDomainOrHost url rt tab_host
      (some b) cancelRequestExplicitly
      = some { allow := true, didMatchException := some mef.isSome,
               cancelRequestExplicitly := cancelRequestExplicitly } := by
  simp [ShouldStartRequest, hA, hB]

/-- Claim C3, witness at a concrete input: Engine B records an exception
rule, so the pointee becomes `true`. -/
theorem shouldStartRequest_no_block_witness :
    ShouldStartRequest engineANoMatch engineBExceptionOnly sdhNever
      "https://a.com/" .kScript "b.com" (some false) (some false)
      = some { allow := true,
               didMatchException :=
                 some (some { filterOption := 0 } : Option ABFilter).isSome,
               cancelRequestExplicitly := some false } :=
  shouldStartRequest_no_block engineANoMatch engineBExceptionOnly sdhNever
    "https://a.com/" .kScript "b.com" false (some false) none
    (some { filterOption := 0 }) rfl rfl

/-- Outcome state "blocked with explicit cancel": the request is blocked,
the explicit-cancel pointee is `true`, and no exception is reported. -/
def blockedWithExplicitCancel (res : SSRResult) : Prop :=
  res.allow = false ∧ res.cancelRequestExplicitly = some true ∧
    res.didMatchException ≠ some true

/-- Outcome state "blocked without explicit cancel". -/
def blockedWithoutExplicitCancel (res : SSRResult) : Prop :=
  res.allow = false ∧ res.cancelRequestExplicitly ≠ some true ∧
    res.didMatchException ≠ some true

/-- Outcome state "not blocked, matching exception recorded". -/
def notBlockedExceptionMatched (res : SSRResult) : Prop :=
  res.allow = true ∧ res.didMatchException = some true

/-- Outcome state "not blocked, no match at all". -/
def notBlockedNoMatch (res : SSRResult) : Prop :=
  res.allow = true ∧ res.didMatchException ≠ some true

/-- Exactly one of four propositions holds. -/
def exactlyOneOfFour (p1 p2 p3 p4 : Prop) : Prop :=
  (p1 ∧ ¬p2 ∧ ¬p3 ∧ ¬p4) ∨ (¬p1 ∧ p2 ∧ ¬p3 ∧ ¬p4) ∨
    (¬p1 ∧ ¬p2 ∧ p3 ∧ ¬p4) ∨ (¬p1 ∧ ¬p2 ∧ ¬p3 ∧ p4)

/-- Claim C4, counterexample: with the caller's `did_match_exception`
initially pointing at `true` and Engine A reporting a match, the completed
call yields `allow = false` together with a `did_match_exception` pointee of
`true` (the Engine-A path returns without writing the out-parameter) — so
"matchedException = true and allow = false never hold together" fails as
stated. -/
theorem shouldStartRequest_invariant_counterexample :
    (ShouldStartRequest engineAMatch engineBNoMatch sdhNever
        "https://tracker.example/" .kImage "site.example"
        (some true) none).map SSRResult.allow = some false ∧
    (ShouldStartRequest engineAMatch engineBNoMatch sdhNever
        "https://tracker.example/" .kImage "site.example"
        (some true) none).map SSRResult.didMatchException
      = some (some true) := by
  exact ⟨by decide, by decide⟩

/-- Claim C4 (amended): for every completed evaluation in which the caller's
`did_match_exception` does not already point at `true` (it is null or points
at `false`; on an Engine-A block the parameter is left unchanged, which is
what the counterexample exploits), `allow = false` and a reported exception
match never hold together, and exactly one of the four outcome states
{blocked with explicit cancel, blocked without, not blocked with exception
matched, not blocked with no match} holds. -/
theorem shouldStartRequest_exactly_one_outcome (engineA : EngineA)
    (engineB : EngineB) (sameDomainOrHost : SameDomainOrHostFn) (url : String)
    (rt : ResourceType) (tab_host : String)
    (didMatchException cancelRequestExplicitly : Option Bool)
    (res : SSRResult)
    (hdme : didMatchException ≠ some true)
    (hres : ShouldStartRequest engineA engineB sameDomainOrHost url rt tab_host
      didMatchException cancelRequestExplicitly = some res) :
    ¬(res.allow = false ∧ res.didMatchException = some true) ∧
    exactlyOneOfFour (blockedWithExplicitCancel res)
      (blockedWithoutExplicitCancel res) (notBlockedExceptionMatched res)
      (notBlockedNoMatch res) := by
  have hkey : res.allow = false → res.didMatchException ≠ some true := by
    intro hallow
    simp only [ShouldStartRequest] at hres
    split at hres
    · simp only [Option.some.injEq] at hres
      subst hres
      simpa using hdme
    · split at hres
      · cases didMatchException with
        | none => exact absurd hres (by simp)
        | some b =>
          simp only [Option.some.injEq] at hres
          subst hres
          simp
      · simp only [Option.some.injEq] at hres
        subst hres
        simp at hallow
  constructor
  · rintro ⟨h1, h2⟩
    exact hkey h1 h2
  · rcases res with ⟨allow, rdme, rcre⟩
    simp only [blockedWithExplicitCancel, blockedWithoutExplicitCancel,
      notBlockedExceptionMatched, notBlockedNoMatch, exactlyOneOfFour]
    cases allow
    · have h1 : rdme ≠ some true := hkey rfl
      by_cases h2 : rcre = some true <;> simp [h1, h2]
    · by_cases h3 : rdme = some true <;> simp [h3]

/-- Claim C4 (amended), witness at a concrete input: Engine B blocks without
explicit cancel, so the second outcome state holds. -/
theorem shouldStartRequest_exactly_one_outcome_witness :
    (¬(({ allow := false, didMatchException := some false,
          cancelRequestExplicitly := none } : SSRResult).allow = false ∧
       ({ allow := false, didMatchException := some false,
          cancelRequestExplicitly := none } : SSRResult).didMatchException
         = some true)) ∧
    exactlyOneOfFour
      (blockedWithExplicitCancel
        { allow := false, didMatchException := some false,
          cancelRequestExplicitly := none })
      (blockedWithoutExplicitCancel
        { allow := false, didMatchException := some false,
          cancelRequestExplicitly := none })
      (notBlockedExceptionMatched
        { allow := false, didMatchException := some false,
          cancelRequestExplicitly := none })
      (notBlockedNoMatch
        { allow := false, didMatchException := some false,
          cancelRequestExplicitly := none }) :=
  shouldStartRequest_exactly_one_outcome engineANoMatch engineBBlockPlain
    sdhNever "https://a.com/" .kScript "b.com" (some false) none
    { allow := false, didMatchException := some false,
      cancelRequestExplicitly := none }
    (by decide) (by decide)

/-- Claim C9: precondition asymmetry of the out-parameters.  First conjunct:
on the Engine-B block path `did_match_exception` is dereferenced without a
null check, so a null pointer there makes the call fall into the error case
(`none`), whatever `cancel_request_explicitly` is — `cancel_request_explicitly`
itself is guarded by a null check on that path.  Second conjunct: a non-null
`did_match_exception` makes the error case unreachable on every path, for
every state of `cancel_request_explicitly` (including null).  Third
conjunct: the no-block path guards `did_match_exception` before writing it,
so a null pointer completes the call there with the pointer left null. -/
theorem shouldStartRequest_null_check_asymmetry :
    (∀ (engineA : EngineA) (engineB : EngineB)
        (sameDomainOrHost : SameDomainOrHostFn) (url : String)
        (rt : ResourceType) (tab_host : String)
        (cancelRequestExplicitly : Option Bool),
      engineA url (Origin.createFromNormalizedTuple "https" tab_host 80).urlSpec
          (ResourceTypeToString rt) = false →
      (engineB url (requestFilterOption sameDomainOrHost url rt tab_host)
        tab_host).matched = true →
      ShouldStartRequest engineA engineB sameDomainOrHost url rt tab_host
        none cancelRequestExplicitly = none) ∧
    (∀ (engineA : EngineA) (engineB : EngineB)
        (sameDomainOrHost : SameDomainOrHostFn) (url : String)
        (rt : ResourceType) (tab_host : String) (b : Bool)
        (cancelRequestExplicitly : Option Bool),
      (ShouldStartRequest engineA engineB sameDomainOrHost url rt tab_host
        (some b) cancelRequestExplicitly).isSome = true) ∧
    (∀ (engineA : EngineA) (engineB : EngineB)
        (sameDomainOrHost : SameDomainOrHostFn) (url : String)
        (rt : ResourceType) (tab_host : String)
        (cancelRequestExplicitly : Option Bool),
      engineA url (Origin.createFromNormalizedTuple "https" tab_host 80).urlSpec
          (ResourceTypeToString rt) = false →
      (engineB url (requestFilterOption sameDomainOrHost url rt tab_host)
        tab_host).matched = false →
      ShouldStartRequest engineA engineB sameDomainOrHost url rt tab_host
        none cancelRequestExplicitly
        = some { allow := true, didMatchException := none,
                 cancelRequestExplicitly := cancelRequestExplicitly }) := by
  refine ⟨?_, ?_, ?_⟩
  · intro engineA engineB sameDomainOrHost url rt tab_host cre hA hB
    simp [ShouldStartRequest, hA, hB]
  · intro engineA engineB sameDomainOrHost url rt tab_host b cre
    simp only [ShouldStartRequest]
    split
    · simp
    · split <;> simp
  · intro engineA engineB sameDomainOrHost url rt tab_host cre hA hB
    simp [ShouldStartRequest, hA, hB]

/-- Claim C9, witness: all three conjuncts instantiated at concrete
inputs. -/
theorem shouldStartRequest_null_check_asymmetry_witness :
    ShouldStartRequest engineANoMatch engineBBlockPlain sdhNever
      "https://a.com/" .kXhr "b.com" none (some false) = none ∧
    (ShouldStartRequest engineAMatch engineBBlockPlain sdhNever
      "https://a.com/" .kXhr "b.com" (some true) none).isSome = true ∧
    ShouldStartRequest engineANoMatch engineBNoMatch sdhNever
      "https://a.com/" .kXhr "b.com" none (some true)
      = some { allow := true, didMatchException := none,
               cancelRequestExplicitly := some true } :=
  ⟨shouldStartRequest_null_check_asymmetry.1 engineANoMatch engineBBlockPlain
      sdhNever "https://a.com/" .kXhr "b.com" (some false) rfl rfl,
   shouldStartRequest_null_check_asymmetry.2.1 engineAMatch engineBBlockPlain
      sdhNever "https://a.com/" .kXhr "b.com" true none,
   shouldStartRequest_null_check_asymmetry.2.2 engineANoMatch engineBNoMatch
      sdhNever "https://a.com/" .kXhr "b.com" (some true) rfl rfl⟩

/-- Claim C8: a single evaluation has no side effect on the service state —
the state-threaded `ShouldStartRequest` (whose C++ body contains no
assignment to any member) returns the service state unchanged, its Engine A,
Engine B and buffer included, and its observable output is exactly the pure
arbiter applied to the state's two engines. -/
theorem shouldStartRequest_frame (st : AdBlockServiceState)
    (sameDomainOrHost : SameDomainOrHostFn) (url : String)
    (rt : ResourceType) (tab_host : String)
    (didMatchException cancelRequestExplicitly : Option Bool) :
    (st.shouldStartRequest sameDomainOrHost url rt tab_host
      didMatchException cancelRequestExplicitly).2 = st ∧
    (st.shouldStartRequest sameDomainOrHost url rt tab_host
      didMatchException cancelRequestExplicitly).1
      = ShouldStartRequest st.ad_block_client2 st.ad_block_client
          sameDomainOrHost url rt tab_host didMatchException
          cancelRequestExplicitly :=
  ⟨rfl, rfl⟩

/-- Claim C7: on rule-data load completion, an empty buffer skips the swap;
a failed deserialization (no engine instance) skips the swap; and only a
non-empty buffer together with a successfully deserialized instance replaces
the active Engine B and its buffer (leaving Engine A alone), so no partial
or empty engine ever becomes active. -/
theorem onGetDATFileData_swap (st : AdBlockServiceState)
    (result : Option EngineB × List Nat) :
    (result.2 = [] → OnGetDATFileData st result = st) ∧
    (result.1 = none → OnGetDATFileData st result = st) ∧
    (∀ client : EngineB, result.1 = some client → result.2 ≠ [] →
      OnGetDATFileData st result
        = { ad_block_client := client,
            ad_block_client2 := st.ad_block_client2,
            buffer := result.2 }) := by
  rcases result with ⟨r1, r2⟩
  refine ⟨?_, ?_, ?_⟩
  · intro h
    subst h
    rfl
  · intro h
    subst h
    cases r2 <;> rfl
  · intro client h1 h2
    subst h1
    cases r2 with
    | nil => exact absurd rfl h2
    | cons x xs => rfl

/-- Claim C7, witness: the three conjuncts at concrete loader results. -/
theorem onGetDATFileData_swap_witness :
    OnGetDATFileData sampleServiceState (some engineBNoMatch, []) = sampleServiceState ∧
    OnGetDATFileData sampleServiceState (none, [1, 2]) = sampleServiceState ∧
    OnGetDATFileData sampleServiceState (some engineBNoMatch, [1, 2])
      = { ad_block_client := engineBNoMatch,
          ad_block_client2 := sampleServiceState.ad_block_client2,
          buffer := [1, 2] } :=
  ⟨(onGetDATFileData_swap sampleServiceState (some engineBNoMatch, [])).1 rfl,
   (onGetDATFileData_swap sampleServiceState (none, [1, 2])).2.1 rfl,
   (onGetDATFileData_swap sampleServiceState (some engineBNoMatch, [1, 2])).2.2
     engineBNoMatch rfl (by decide)⟩

/-- `std::lexicographical_compare` agrees with the mathematical strict
lexicographic order on integer lists. -/
theorem lexCompare_eq_true_iff (v w : List Int) :
    lexCompare v w = true ↔ List.Lex (fun a b => a < b) v w := by
  induction v generalizing w with
  | nil =>
    cases w with
    | nil => simp [lexCompare]
    | cons b bs =>
      simp only [lexCompare]
      exact ⟨fun _ => List.Lex.nil, fun _ => trivial⟩
  | cons a as ih =>
    cases w with
    | nil => simp [lexCompare]
    | cons b bs =>
      by_cases hab : a < b
      · simp only [lexCompare, hab, if_true]
        exact ⟨fun _ => List.Lex.rel hab, fun _ => trivial⟩
      · by_cases hba : b < a
        · simp only [lexCompare, hab, hba, if_true, if_false, ite_true,
            ite_false, Bool.false_eq_true, false_iff]
          intro h
          cases h with
          | cons h2 => exact absurd hba (lt_irrefl a)
          | rel h2 => exact hab h2
        · have heq : a = b := le_antisymm (not_lt.mp hba) (not_lt.mp hab)
          subst heq
          simp only [lexCompare, lt_irrefl, if_false, ite_false]
          rw [List.Lex.cons_iff]
          exact ih bs

/-- `std::lexicographical_compare` is irreflexive. -/
theorem lexCompare_self (v : List Int) : lexCompare v v = false := by
  induction v with
  | nil => rfl
  | cons a as ih => simp [lexCompare, lt_irrefl, ih]

/-- Claim C10, counterexample: "2147483648" is an order string whose single
dot-separated component is a non-negative decimal integer, but it exceeds
the 32-bit `int` range, so `base::StringToInt` reports failure and
`OrderToIntVect`'s `CHECK(b)` aborts: `CompareOrder` on it returns nothing
at all (modelled `none`), while the claim requires
`CompareOrder(s, s) = false` for every such string. -/
theorem compareOrder_overflow_counterexample :
    CompareOrder "2147483648" "2147483648" = none ∧
    (none : Option Bool) ≠ some false := by
  exact ⟨by decide, by decide⟩

/-- Claim C10 (amended): for all order strings whose dot-separated
components parse as non-negative decimal integers within the 32-bit `int`
range (equivalently, on which `OrderToIntVect` succeeds), `CompareOrder` is
numeric, not string-lexicographic: it returns true exactly when the parsed
integer vector of the left string is strictly lexicographically smaller than
that of the right string; on equal strings it returns false; and
`CompareOrder "1.2" "1.10" = true` even though "1.10" precedes "1.2" as a
string. -/
theorem compareOrder_numeric (left right : String) (vl vr : List Int)
    (hl : OrderToIntVect left = some vl) (hr : OrderToIntVect right = some vr) :
    (CompareOrder left right = some true ↔
      List.Lex (fun a b => a < b) vl vr) ∧
    CompareOrder left left = some false ∧
    CompareOrder "1.2" "1.10" = some true := by
  refine ⟨?_, ?_, by decide⟩
  · simp only [CompareOrder, hl, hr, Option.some.injEq]
    exact lexCompare_eq_true_iff vl vr
  · simp only [CompareOrder, hl, lexCompare_self]

/-- Claim C10 (amended), witness at the concrete inputs "1.2" and "1.10". -/
theorem compareOrder_numeric_witness :
    OrderToIntVect "1.2" = some [1, 2] ∧
    OrderToIntVect "1.10" = some [1, 10] ∧
    ((CompareOrder "1.2" "1.10" = some true ↔
        List.Lex (fun a b => a < b) [(1 : Int), 2] [(1 : Int), 10]) ∧
      CompareOrder "1.2" "1.2" = some false ∧
      CompareOrder "1.2" "1.10" = some true) :=
  ⟨rfl, rfl, compareOrder_numeric "1.2" "1.10" [1, 2] [1, 10] rfl rfl⟩
